import Mathlib

/-
Verification of the spegel registry mirror against its specification.

The registry request pipeline is embedded from src/internal/registry/registry.go.
The OCI walk, the distribution path parser and the mirror-config writer have no
implementation file in src (only their tests are present there), so they are
modelled from the specification, as marked on each definition.
-/

set_option autoImplicit false

namespace Spegel

/-- Embeds the constant MirroredHeaderKey of registry.go. -/
def MirroredHeaderKey : String := "X-Spegel-Mirrored"

/-- First value stored for a header key, none when the header is absent. -/
def headerLookup : List (String × String) → String → Option String
  | [], _ => none
  | (k, v) :: rest, key => if k = key then some v else headerLookup rest key

/-- Embeds Go http.Header.Get: first value for the key, empty string when absent. -/
def headerGet (hs : List (String × String)) (key : String) : String :=
  (headerLookup hs key).getD ""

/-- Splits a character list at every occurrence of the separator, matching Go
strings.Split for a one-character separator. -/
def splitChars (c : Char) : List Char → List (List Char)
  | [] => [[]]
  | x :: xs =>
    match splitChars c xs with
    | [] => [[x]]
    | y :: ys => if x = c then [] :: y :: ys else (x :: y) :: ys

/-- Splits a string at every occurrence of the separator character. -/
def splitOnChar (c : Char) (s : String) : List String :=
  (splitChars c s.data).map String.mk

/-- Joins strings with the separator character between them. -/
def joinChar (c : Char) : List String → String
  | [] => ""
  | [s] => s
  | s :: rest => s ++ String.singleton c ++ joinChar c rest

/-- One step of lexical path cleaning: skip empty and dot components, pop on
dot-dot (rooted paths stop at the root), push anything else. -/
def cleanStep (stack : List String) (comp : String) : List String :=
  if comp = "" ∨ comp = "." then stack
  else if comp = ".." then stack.dropLast
  else stack ++ [comp]

/-- Embeds Go path.Clean restricted to rooted paths, the only form an HTTP
request URL path takes here. -/
def pathClean (p : String) : String :=
  "/" ++ joinChar '/' ((splitOnChar '/' p).foldl cleanStep [])

/-- Embeds the tag extraction of registryHandler: the Go call strings.Cut with a
separator returns the part after the FIRST occurrence, empty when absent. -/
def cutAfter (s : String) (c : Char) : String :=
  match splitOnChar c s with
  | [] => ""
  | [_] => ""
  | _ :: rest => joinChar c rest

/-- Reference kinds of the distribution API, as in the oci package. -/
inductive ReferenceType where
  | manifest
  | blob
deriving DecidableEq, Repr

/-- A reference is a digest when it carries an algorithm separator, which the
tag grammar forbids. -/
def isDigestRef (s : String) : Bool := s.data.contains ':'

/-- First character of a tag: alphanumeric or underscore. -/
def isTagStartChar (c : Char) : Bool := c.isAlphanum || c = '_'

/-- Later characters of a tag: alphanumeric, underscore, dot or dash. -/
def isTagChar (c : Char) : Bool := c.isAlphanum || c = '_' || c = '.' || c = '-'

/-- Tag grammar of the specification, one start character then at most 127 more. -/
def isValidTag (s : String) : Bool :=
  match s.data with
  | [] => false
  | c :: cs => isTagStartChar c && cs.all isTagChar && decide (s.data.length ≤ 128)

/-- Joins name components back with slashes. -/
def joinName (parts : List String) : String := joinChar '/' parts

/-- Prepends the namespace to the image name when the namespace is non-empty. -/
def qualify (ns name : String) : String := if ns = "" then name else ns ++ "/" ++ name

/-- Result of parsing a distribution path: the full tag reference (empty for
digest requests), the digest (empty for tag requests), and the resource kind. -/
structure ParseResult where
  ref : String
  dgst : String
  refType : ReferenceType
deriving DecidableEq, Repr

/-- Modelled from the spec: ParsePathComponents of the oci package, whose
implementation file is not in src. Section 4.1: paths are
/v2/{name}/manifests/{reference} and /v2/{name}/blobs/{digest}, the name may
contain slashes, a non-empty ns query is prepended to the name, a tag manifest
reference yields the fully qualified name-colon-tag string. -/
def parsePathComponents (ns urlPath : String) : Except String ParseResult :=
  match splitOnChar '/' urlPath with
  | "" :: "v2" :: rest =>
    match rest.reverse with
    | reference :: "manifests" :: nameRev =>
      if nameRev = [] then Except.error "distribution path could not be parsed"
      else if isDigestRef reference then Except.ok ⟨"", reference, ReferenceType.manifest⟩
      else if isValidTag reference then
        Except.ok ⟨qualify ns (joinName nameRev.reverse) ++ ":" ++ reference, "", ReferenceType.manifest⟩
      else Except.error "distribution path could not be parsed"
    | reference :: "blobs" :: nameRev =>
      if nameRev = [] ∨ ¬isDigestRef reference then Except.error "distribution path could not be parsed"
      else Except.ok ⟨"", reference, ReferenceType.blob⟩
    | _ => Except.error "distribution path could not be parsed"
  | _ => Except.error "distribution path could not be parsed"

/-- The action registryHandler settles on: a direct response, delegation to the
mirror proxy with a content key, or local serving of a manifest or blob. -/
inductive HandlerAction where
  | respond (status : Nat) (msg : String)
  | mirror (key : String)
  | serveManifest (dgst : String)
  | serveBlob (dgst : String)
deriving DecidableEq, Repr

/-- An incoming request: method, URL path, the ns query value and the headers. -/
structure Request where
  method : String
  path : String
  ns : String
  headers : List (String × String)
deriving DecidableEq, Repr

/-- Embeds registryHandler of registry.go: reject non GET or HEAD, answer the
version probe, parse the path, apply the resolve-latest-tag gate (the tag is
taken as the text after the first colon of the reference, exactly as the Go
code cuts it), hand requests without the mirrored header value true to the
mirror proxy, and serve the rest locally, resolving tags to digests first. -/
def registryHandler (resolveLatestTag : Bool) (resolveTag : String → Except String String)
    (req : Request) : HandlerAction :=
  if ¬(req.method = "GET" ∨ req.method = "HEAD") then HandlerAction.respond 404 ""
  else if pathClean req.path = "/v2" then
    (if ¬req.method = "GET" then HandlerAction.respond 404 "" else HandlerAction.respond 200 "")
  else
    match parsePathComponents req.ns req.path with
    | Except.error e => HandlerAction.respond 404 e
    | Except.ok pr =>
      if resolveLatestTag = false ∧ pr.ref ≠ "" ∧ cutAfter pr.ref ':' = "latest" then
        HandlerAction.respond 404 ""
      else if headerGet req.headers MirroredHeaderKey ≠ "true" then
        HandlerAction.mirror (if pr.dgst = "" then pr.ref else pr.dgst)
      else
        match (if pr.dgst = "" then resolveTag pr.ref else Except.ok pr.dgst) with
        | Except.error e => HandlerAction.respond 404 e
        | Except.ok d =>
          match pr.refType with
          | ReferenceType.manifest => HandlerAction.serveManifest d
          | ReferenceType.blob => HandlerAction.serveBlob d

/-- Whether the handler delegated to the mirror proxy, that is forwarded the
request toward a peer. -/
def isMirror : HandlerAction → Bool
  | HandlerAction.mirror _ => true
  | _ => false

/-- Outcome of one proxied attempt against a peer: the transport failed, or the
peer answered with a status code and a body. -/
inductive AttemptOutcome where
  | transportError
  | response (status : Nat) (body : String)
deriving DecidableEq, Repr

/-- One event observed by the handleMirror select loop: the resolve deadline
fired, the candidate channel closed, or a candidate mirror arrived (with
whether its URL parses, and the outcome of proxying to it). -/
inductive MirrorEvent where
  | timeout
  | closed
  | candidate (url : String) (parseOk : Bool) (outcome : AttemptOutcome)
deriving DecidableEq, Repr

/-- Embeds httputil.ReverseProxy.ServeHTTP under the hooks installed by
handleMirror: the ErrorHandler is a no-op, and ModifyResponse returns an error
on any status other than 200. By the contract of ReverseProxy, a transport
failure or a ModifyResponse error invokes the ErrorHandler and writes nothing
to the client; only a 200 response is committed, and its body forwarded. The
result is the body written to the client, none when nothing was written. -/
def proxyAttempt : AttemptOutcome → Option String
  | AttemptOutcome.transportError => none
  | AttemptOutcome.response s body => if s = 200 then some body else none

/-- Embeds the for-select loop of handleMirror as the list of writes made to
the response writer (the client observes the first write; any later entry
records an abort attempted after the response was already committed). Deadline
expiry writes 404 naming the key, a closed channel writes the exhaustion 500,
an unparsable mirror URL writes 500, a failed attempt writes nothing and the
loop advances, and the first successful attempt writes the 200 body and
returns. An empty event list means the loop is still blocked waiting. -/
def mirrorLoop (key : String) : List MirrorEvent → List (Nat × String)
  | [] => []
  | MirrorEvent.timeout :: _ => [(404, "could not resolve mirror for key: " ++ key)]
  | MirrorEvent.closed :: _ => [(500, "mirror resolution has been exhausted")]
  | MirrorEvent.candidate _ false _ :: _ => [(500, "invalid mirror url")]
  | MirrorEvent.candidate _ true outcome :: rest =>
    match proxyAttempt outcome with
    | some body => [(200, body)]
    | none => mirrorLoop key rest

/-- Embeds handleMirror of registry.go end to end. When the router Resolve call
itself fails, the code aborts with 500 carrying the error but, lacking a
return statement there, still falls through into the select loop, so any
further writes of the loop are appended after the 500. -/
def handleMirror (resolveErr : Option String) (key : String) (events : List MirrorEvent) :
    List (Nat × String) :=
  (match resolveErr with
    | none => []
    | some msg => [(500, msg)]) ++ mirrorLoop key events

/-- A candidate event whose attempt wrote nothing to the client: its URL parsed
but the proxy attempt failed at transport level or with a non-200 status. -/
def failedCandidate : MirrorEvent → Bool
  | MirrorEvent.candidate _ true outcome => (proxyAttempt outcome).isNone
  | _ => false

/-- The local OCI store as seen by handleBlob: blob sizes and blob contents by
digest. -/
structure OciStore where
  sizes : List (String × Nat)
  contents : List (String × String)
deriving DecidableEq, Repr

/-- First value for a digest in an association list. -/
def assocLookup {α : Type} : List (String × α) → String → Option α
  | [], _ => none
  | (k, v) :: rest, key => if k = key then some v else assocLookup rest key

/-- Response assembled by a local serving handler: status, headers and the body
bytes written. -/
structure BlobResponse where
  status : Nat
  headers : List (String × String)
  body : String
deriving DecidableEq, Repr

/-- Embeds handleBlob of registry.go: a GetSize failure aborts with status 500
and no bytes; otherwise the Content-Length and Docker-Content-Digest headers
are set, a HEAD request skips the body, and a WriteBlob failure aborts with
500. -/
def handleBlob (st : OciStore) (method dgst : String) : BlobResponse :=
  match assocLookup st.sizes dgst with
  | none => ⟨500, [], ""⟩
  | some size =>
    let hs := [("Content-Length", toString size), ("Docker-Content-Digest", dgst)]
    if method = "HEAD" then ⟨200, hs, ""⟩
    else
      match assocLookup st.contents dgst with
      | none => ⟨500, hs, ""⟩
      | some bytes => ⟨200, hs, bytes⟩

/-- A platform record of a descriptor; an absent variant is the empty string. -/
structure Platform where
  architecture : String
  os : String
  variant : String
deriving DecidableEq, Repr

/-- An OCI descriptor: media type, digest, size and optional platform. -/
structure Descriptor where
  mediaType : String
  digest : String
  size : Nat
  platform : Option Platform
deriving DecidableEq, Repr

/-- A parsed blob in the content store: a multi-platform index listing child
manifests, or a single-platform manifest with a config and ordered layers. -/
inductive Blob where
  | index (manifests : List Descriptor)
  | manifest (config : Descriptor) (layers : List Descriptor)
deriving DecidableEq, Repr

/-- The content store: digests mapped to parsed documents. -/
abbrev Store := List (String × Blob)

/-- First document stored under a digest. -/
def storeLookup : Store → String → Option Blob
  | [], _ => none
  | (k, b) :: rest, d => if k = d then some b else storeLookup rest d

/-- Modelled from the spec: the child filter of the WalkImage traversal
(section 4.2). A child of an index is recursed into exactly when the platform
matcher accepts its platform, and a descriptor whose platform architecture is
unknown, an attestation manifest, is skipped whatever the matcher says. -/
def matchDesc (matcher : Platform → Bool) (d : Descriptor) : Bool :=
  match d.platform with
  | none => false
  | some pl => ¬pl.architecture = "unknown" && matcher pl

/-- Failure modes of the walk: the depth safety cap was hit, a digest was not
in the store, or an index had no platform-matching child. -/
inductive WalkError where
  | depthExceeded
  | notFound (dgst : String)
  | noMatchingPlatform (dgst : String)
deriving DecidableEq, Repr

mutual

/-- Modelled from the spec: WalkImage of the oci package (GetImageDigests),
whose implementation file is not in src. Section 4.2: the output starts with
the root digest; an index recurses into exactly its platform-matching children
in index order and fails with NoMatchingPlatform naming the index digest when
none matches; a manifest contributes its digest, its config digest and its
layer digests in document order. The fuel argument is the depth safety cap the
design notes require. -/
def walkDesc (fuel : Nat) (store : Store) (matcher : Platform → Bool) (dgst : String) :
    Except WalkError (List String) :=
  match fuel with
  | 0 => Except.error WalkError.depthExceeded
  | fuel + 1 =>
    match storeLookup store dgst with
    | none => Except.error (WalkError.notFound dgst)
    | some (Blob.manifest config layers) =>
      Except.ok (dgst :: config.digest :: layers.map Descriptor.digest)
    | some (Blob.index manifests) =>
      let matching := manifests.filter (matchDesc matcher)
      if matching = [] then Except.error (WalkError.noMatchingPlatform dgst)
      else
        match walkChildren fuel store matcher (matching.map Descriptor.digest) with
        | Except.error e => Except.error e
        | Except.ok rest => Except.ok (dgst :: rest)

/-- Walks each child digest in order and concatenates the results, failing on
the first failing child. -/
def walkChildren (fuel : Nat) (store : Store) (matcher : Platform → Bool) :
    List String → Except WalkError (List String)
  | [] => Except.ok []
  | d :: ds =>
    match walkDesc fuel store matcher d with
    | Except.error e => Except.error e
    | Except.ok l =>
      match walkChildren fuel store matcher ds with
      | Except.error e => Except.error e
      | Except.ok ls => Except.ok (l ++ ls)

end

/-- A pure file system rooted at the config path: each file is a relative path
given as components, with its content. -/
abbrev Fs := List (List String × String)

/-- Whether a relative path lies under the backup subtree. -/
def isBackupPath (p : List String) : Bool :=
  match p with
  | "_backup" :: _ => true
  | _ => false

/-- Whether the config path already holds a backup subtree. -/
def hasBackup (fs : Fs) : Bool := fs.any (fun f => isBackupPath f.1)

/-- Modelled from the spec: the file-system effect of AddMirrorConfiguration,
whose implementation file is not in src. Section 4.6: when no backup subtree
exists yet, every pre-existing file under a subdirectory is moved below the
backup subtree with its relative path preserved while loose files directly in
the config path are discarded; when a backup subtree already exists it is left
untouched and everything else pre-existing is discarded; the fresh host files
are then written. -/
def addMirrorConfigFs (fs newFiles : Fs) : Fs :=
  (if hasBackup fs then fs.filter (fun f => isBackupPath f.1)
   else (fs.filter (fun f => 2 ≤ f.1.length)).map (fun f => ("_backup" :: f.1, f.2)))
  ++ newFiles

/-- The amd64 child manifest descriptor of the reference index. -/
def amd64Desc : Descriptor :=
  ⟨"application/vnd.oci.image.manifest.v1+json",
   "sha256:44cb2cf712c060f69df7310e99339c1eb51a085446f1bb6d44469acff35b4355", 2372,
   some ⟨"amd64", "linux", ""⟩⟩

/-- The arm child manifest descriptor of the reference index. -/
def armDesc : Descriptor :=
  ⟨"application/vnd.oci.image.manifest.v1+json",
   "sha256:0ad7c556c55464fa44d4c41e5236715e015b0266daced62140fb5c6b983c946b", 2372,
   some ⟨"arm", "linux", "v7"⟩⟩

/-- The arm64 child manifest descriptor of the reference index. -/
def arm64Desc : Descriptor :=
  ⟨"application/vnd.oci.image.manifest.v1+json",
   "sha256:dce623533c59af554b85f859e91fc1cbb7f574e873c82f36b9ea05a09feb0b53", 2372,
   some ⟨"arm64", "linux", ""⟩⟩

/-- The attestation manifest descriptor attached to the amd64 manifest. -/
def attest1Desc : Descriptor :=
  ⟨"application/vnd.oci.image.manifest.v1+json",
   "sha256:73af5483f4d2d636275dcef14d5443ff96d7347a0720ca5a73a32c73855c4aac", 566,
   some ⟨"unknown", "unknown", ""⟩⟩

/-- The attestation manifest descriptor attached to the arm manifest. -/
def attest2Desc : Descriptor :=
  ⟨"application/vnd.oci.image.manifest.v1+json",
   "sha256:36e11bf470af256febbdfad9d803e60b7290b0268218952991b392be9e8153bd", 566,
   some ⟨"unknown", "unknown", ""⟩⟩

/-- The attestation manifest descriptor attached to the arm64 manifest. -/
def attest3Desc : Descriptor :=
  ⟨"application/vnd.oci.image.manifest.v1+json",
   "sha256:42d1c43f2285e8e3d39f80b8eed8e4c5c28b8011c942b5413ecc6a0050600609", 566,
   some ⟨"unknown", "unknown", ""⟩⟩

/-- The digest of the reference index of the test data. -/
def rootDigest : String :=
  "sha256:e80e36564e9617f684eb5972bf86dc9e9e761216e0d40ff78ca07741ec70725a"

/-- The children of the reference index, in index order. -/
def rootManifests : List Descriptor :=
  [amd64Desc, armDesc, arm64Desc, attest1Desc, attest2Desc, attest3Desc]

/-- Layer descriptor shorthand for the test data. -/
def layerDesc (d : String) (n : Nat) : Descriptor :=
  ⟨"application/vnd.oci.image.layer.v1.tar+gzip", d, n, none⟩

/-- The amd64 manifest document of the test data: its config and eleven layers. -/
def amd64Manifest : Blob :=
  Blob.manifest
    ⟨"application/vnd.oci.image.config.v1+json",
     "sha256:d715ba0d85ee7d37da627d0679652680ed2cb23dde6120f25143a0b8079ee47e", 2842, none⟩
    [layerDesc "sha256:a7ca0d9ba68fdce7e15bc0952d3e898e970548ca24d57698725836c039086639" 103732,
     layerDesc "sha256:fe5ca62666f04366c8e7f605aa82997d71320183e99962fa76b3209fdfbb8b58" 21202,
     layerDesc "sha256:b02a7525f878e61fc1ef8a7405a2cc17f866e8de222c1c98fd6681aff6e509db" 716491,
     layerDesc "sha256:fcb6f6d2c9986d9cd6a2ea3cc2936e5fc613e09f1af9042329011e43057f3265" 317,
     layerDesc "sha256:e8c73c638ae9ec5ad70c49df7e484040d889cca6b4a9af056579c3d058ea93f0" 198,
     layerDesc "sha256:1e3d9b7d145208fa8fa3ee1c9612d0adaac7255f1bbc9ddea7e461e0b317805c" 113,
     layerDesc "sha256:4aa0ea1413d37a58615488592a0b827ea4b2e48fa5a77cf707d0e35f025e613f" 385,
     layerDesc "sha256:7c881f9ab25e0d86562a123b5fb56aebf8aa0ddd7d48ef602faf8d1e7cf43d8c" 355,
     layerDesc "sha256:5627a970d25e752d971a501ec7e35d0d6fdcd4a3ce9e958715a686853024794a" 130562,
     layerDesc "sha256:76f3a495ffdc00c612747ba0c59fc56d0a2610d2785e80e9edddbf214c2709ef" 36529876,
     layerDesc "sha256:4f4fb700ef54461cfa02571ae0db9a0dc1e0cdb5577484a6d75e68dc38e8acc1" 32]

/-- The arm64 manifest document of the test data. -/
def arm64Manifest : Blob :=
  Blob.manifest
    ⟨"application/vnd.oci.image.config.v1+json",
     "sha256:c73129c9fb699b620aac2df472196ed41797fd0f5a90e1942bfbf19849c4a1c9", 2842, none⟩
    [layerDesc "sha256:0b41f743fd4d78cb50ba86dd3b951b51458744109e1f5063a76bc5a792c3d8e7" 103732,
     layerDesc "sha256:fe5ca62666f04366c8e7f605aa82997d71320183e99962fa76b3209fdfbb8b58" 21202,
     layerDesc "sha256:b02a7525f878e61fc1ef8a7405a2cc17f866e8de222c1c98fd6681aff6e509db" 716491,
     layerDesc "sha256:fcb6f6d2c9986d9cd6a2ea3cc2936e5fc613e09f1af9042329011e43057f3265" 317,
     layerDesc "sha256:e8c73c638ae9ec5ad70c49df7e484040d889cca6b4a9af056579c3d058ea93f0" 198,
     layerDesc "sha256:1e3d9b7d145208fa8fa3ee1c9612d0adaac7255f1bbc9ddea7e461e0b317805c" 113,
     layerDesc "sha256:4aa0ea1413d37a58615488592a0b827ea4b2e48fa5a77cf707d0e35f025e613f" 385,
     layerDesc "sha256:7c881f9ab25e0d86562a123b5fb56aebf8aa0ddd7d48ef602faf8d1e7cf43d8c" 355,
     layerDesc "sha256:5627a970d25e752d971a501ec7e35d0d6fdcd4a3ce9e958715a686853024794a" 130562,
     layerDesc "sha256:0dc769edeab7d9f622b9703579f6c89298a4cf45a84af1908e26fffca55341e1" 34168923,
     layerDesc "sha256:4f4fb700ef54461cfa02571ae0db9a0dc1e0cdb5577484a6d75e68dc38e8acc1" 32]

/-- The arm manifest document of the test data. -/
def armManifest : Blob :=
  Blob.manifest
    ⟨"application/vnd.oci.image.config.v1+json",
     "sha256:1079836371d57a148a0afa5abfe00bd91825c869fcc6574a418f4371d53cab4c", 2855, none⟩
    [layerDesc "sha256:b437b30b8b4cc4e02865517b5ca9b66501752012a028e605da1c98beb0ed9f50" 103732,
     layerDesc "sha256:fe5ca62666f04366c8e7f605aa82997d71320183e99962fa76b3209fdfbb8b58" 21202,
     layerDesc "sha256:b02a7525f878e61fc1ef8a7405a2cc17f866e8de222c1c98fd6681aff6e509db" 716491,
     layerDesc "sha256:fcb6f6d2c9986d9cd6a2ea3cc2936e5fc613e09f1af9042329011e43057f3265" 317,
     layerDesc "sha256:e8c73c638ae9ec5ad70c49df7e484040d889cca6b4a9af056579c3d058ea93f0" 198,
     layerDesc "sha256:1e3d9b7d145208fa8fa3ee1c9612d0adaac7255f1bbc9ddea7e461e0b317805c" 113,
     layerDesc "sha256:4aa0ea1413d37a58615488592a0b827ea4b2e48fa5a77cf707d0e35f025e613f" 385,
     layerDesc "sha256:7c881f9ab25e0d86562a123b5fb56aebf8aa0ddd7d48ef602faf8d1e7cf43d8c" 355,
     layerDesc "sha256:5627a970d25e752d971a501ec7e35d0d6fdcd4a3ce9e958715a686853024794a" 130562,
     layerDesc "sha256:01d28554416aa05390e2827a653a1289a2a549e46cc78d65915a75377c6008ba" 34318536,
     layerDesc "sha256:4f4fb700ef54461cfa02571ae0db9a0dc1e0cdb5577484a6d75e68dc38e8acc1" 32]

/-- The manifest documents of the reference test data, keyed by digest. -/
def testManifestEntries : Store :=
  [("sha256:44cb2cf712c060f69df7310e99339c1eb51a085446f1bb6d44469acff35b4355", amd64Manifest),
   ("sha256:dce623533c59af554b85f859e91fc1cbb7f574e873c82f36b9ea05a09feb0b53", arm64Manifest),
   ("sha256:0ad7c556c55464fa44d4c41e5236715e015b0266daced62140fb5c6b983c946b", armManifest)]

/-- The content store of the reference test data: the index with media type
and its three platform manifests. -/
def testStore : Store :=
  (rootDigest, Blob.index rootManifests) :: testManifestEntries

/-- The platform matcher selecting linux amd64, as the first test case does. -/
def linuxAmd64 (pl : Platform) : Bool := pl.os = "linux" && pl.architecture = "amd64"

/-- The platform matcher selecting darwin arm64, which no child of the
reference index satisfies. -/
def darwinArm64 (pl : Platform) : Bool := pl.os = "darwin" && pl.architecture = "arm64"

/-- The config descriptor stored for a child manifest of the test store. -/
def testCfg (d : Descriptor) : Descriptor :=
  match storeLookup testStore d.digest with
  | some (Blob.manifest c _) => c
  | _ => ⟨"", "", 0, none⟩

/-- The layer descriptors stored for a child manifest of the test store. -/
def testLay (d : Descriptor) : List Descriptor :=
  match storeLookup testStore d.digest with
  | some (Blob.manifest _ l) => l
  | _ => []

/-!  Helper lemmas about the walk. -/

/-- Walking a list of digests that all point at stored manifests yields, for
each one in order, its digest, its config digest and its layer digests. -/
theorem walkChildren_manifests (store : Store) (m : Platform → Bool) (fuel : Nat)
    (cfg : Descriptor → Descriptor) (lay : Descriptor → List Descriptor) :
    ∀ l : List Descriptor,
      (∀ d ∈ l, storeLookup store d.digest = some (Blob.manifest (cfg d) (lay d))) →
      walkChildren (fuel + 1) store m (l.map Descriptor.digest)
        = Except.ok ((l.map
            (fun d => d.digest :: (cfg d).digest :: (lay d).map Descriptor.digest)).flatten)
  | [], _ => by simp [walkChildren]
  | d :: ds, h => by
    have hd := h d (List.mem_cons_self d ds)
    have hds := walkChildren_manifests store m fuel cfg lay ds
      (fun x hx => h x (List.mem_cons_of_mem d hx))
    simp [walkChildren, walkDesc, hd, hds]

/-- Two stored blobs that the walk cannot tell apart under a fixed matcher:
equal manifests, or indexes whose platform-matching children coincide. -/
def blobEquiv (m : Platform → Bool) : Blob → Blob → Prop
  | Blob.manifest c1 l1, Blob.manifest c2 l2 => c1 = c2 ∧ l1 = l2
  | Blob.index ms1, Blob.index ms2 => ms1.filter (matchDesc m) = ms2.filter (matchDesc m)
  | _, _ => False

/-- Lifting of blobEquiv to optional lookup results. -/
def optBlobEquiv (m : Platform → Bool) : Option Blob → Option Blob → Prop
  | none, none => True
  | some b1, some b2 => blobEquiv m b1 b2
  | _, _ => False

theorem blobEquiv_refl (m : Platform → Bool) (b : Blob) : blobEquiv m b b := by
  cases b <;> simp [blobEquiv]

theorem optBlobEquiv_refl (m : Platform → Bool) (o : Option Blob) : optBlobEquiv m o o := by
  cases o <;> simp [optBlobEquiv, blobEquiv_refl]

/-- The walk only inspects stores through the matcher-filtered children of
each document, so two stores related pointwise by optBlobEquiv walk alike. -/
theorem walk_store_congr (m : Platform → Bool) : ∀ fuel : Nat, ∀ s1 s2 : Store,
    (∀ y, optBlobEquiv m (storeLookup s1 y) (storeLookup s2 y)) →
    (∀ x, walkDesc fuel s1 m x = walkDesc fuel s2 m x)
    ∧ (∀ ds, walkChildren fuel s1 m ds = walkChildren fuel s2 m ds) := by
  intro fuel
  induction fuel with
  | zero =>
    intro s1 s2 _
    refine ⟨fun x => by simp [walkDesc], fun ds => ?_⟩
    cases ds <;> simp [walkChildren, walkDesc]
  | succ n ih =>
    intro s1 s2 hequiv
    have hwd : ∀ x, walkDesc (n + 1) s1 m x = walkDesc (n + 1) s2 m x := by
      intro x
      have h := hequiv x
      cases h1 : storeLookup s1 x with
      | none =>
        cases h2 : storeLookup s2 x with
        | none => simp [walkDesc, h1, h2]
        | some b2 => rw [h1, h2] at h; exact absurd h (by simp [optBlobEquiv])
      | some b1 =>
        cases h2 : storeLookup s2 x with
        | none => rw [h1, h2] at h; exact absurd h (by simp [optBlobEquiv])
        | some b2 =>
          rw [h1, h2] at h
          cases b1 with
          | manifest c1 l1 =>
            cases b2 with
            | index ms2 => exact absurd h (by simp [optBlobEquiv, blobEquiv])
            | manifest c2 l2 =>
              obtain ⟨hc, hl⟩ := h
              subst hc; subst hl
              simp [walkDesc, h1, h2]
          | index ms1 =>
            cases b2 with
            | manifest c2 l2 => exact absurd h (by simp [optBlobEquiv, blobEquiv])
            | index ms2 =>
              have hf : ms1.filter (matchDesc m) = ms2.filter (matchDesc m) := h
              have hwc := (ih s1 s2 hequiv).2
              simp [walkDesc, h1, h2, hf, hwc]
    refine ⟨hwd, fun ds => ?_⟩
    induction ds with
    | nil => simp [walkChildren]
    | cons d ds ihds => simp [walkChildren, hwd d, ihds]

/-!  Claim theorems. -/

/-- Claim C1, counterexample: the claim asserts that the mere presence of the
loop-breaker header, whatever its value, prevents forwarding to a peer. The
code only checks for the exact value true: a request carrying the header with
value false is still handed to the mirror proxy. -/
theorem C1_counterexample :
    headerGet [(MirroredHeaderKey, "false")] MirroredHeaderKey ≠ ""
    ∧ isMirror (registryHandler true (fun _ => Except.error "not found")
        ⟨"GET", "/v2/foo/blobs/sha256:abcd", "", [(MirroredHeaderKey, "false")]⟩) = true :=
  ⟨by decide, rfl⟩

/-- Claim C1 as amended: a request whose loop-breaker header value is exactly
true is never handed to the mirror proxy, whatever the configuration, the tag
resolver and the rest of the request. -/
theorem C1_mirrored_true_never_forwarded (rlt : Bool)
    (resolveTag : String → Except String String) (req : Request)
    (h : headerGet req.headers MirroredHeaderKey = "true") :
    isMirror (registryHandler rlt resolveTag req) = false := by
  have hh : (headerGet req.headers MirroredHeaderKey ≠ "true") = False := by simp [h]
  unfold registryHandler
  simp only [hh, if_false]
  repeat' split
  all_goals rfl

/-- Claim C1 witness: the amended theorem applied to a concrete mirrored blob
request. -/
theorem C1_witness :
    isMirror (registryHandler false (fun _ => Except.error "not found")
      ⟨"GET", "/v2/foo/blobs/sha256:abcd", "", [(MirroredHeaderKey, "true")]⟩) = false :=
  C1_mirrored_true_never_forwarded false _ _ (by rfl)

/-- Claim C2: after any run of candidates that wrote nothing (non-200 status
or transport failure), the first candidate whose response is 200 determines
the whole client response: exactly its body is written with status 200, no
failed candidate contributes bytes, and all later candidates are ignored. -/
theorem C2_first_success_only (key u b : String) (fs rest : List MirrorEvent)
    (hf : ∀ e ∈ fs, failedCandidate e = true) :
    mirrorLoop key (fs ++ MirrorEvent.candidate u true (AttemptOutcome.response 200 b) :: rest)
      = [(200, b)] := by
  induction fs with
  | nil => simp [mirrorLoop, proxyAttempt]
  | cons e es ih =>
    have he := hf e (List.mem_cons_self e es)
    have hes : ∀ x ∈ es, failedCandidate x = true :=
      fun x hx => hf x (List.mem_cons_of_mem e hx)
    cases e with
    | timeout => simp [failedCandidate] at he
    | closed => simp [failedCandidate] at he
    | candidate url pok outcome =>
      cases pok with
      | false => simp [failedCandidate] at he
      | true =>
        have hnone : proxyAttempt outcome = none := by
          simpa [failedCandidate, Option.isNone_iff_eq_none] using he
        simpa [mirrorLoop, hnone] using ih hes

/-- Claim C2 witness: the spec scenario where the first peer answers 500 and
the second answers 200 with body X; the client sees exactly 200 and X. -/
theorem C2_witness :
    mirrorLoop "sha256:key"
        ([MirrorEvent.candidate "http://p1:5000" true (AttemptOutcome.response 500 "ERR")]
          ++ MirrorEvent.candidate "http://p2:5000" true (AttemptOutcome.response 200 "X") :: [])
      = [(200, "X")] :=
  C2_first_success_only "sha256:key" "http://p2:5000" "X" _ _ (by decide)

/-- Claim C3: when every candidate attempt so far failed, a firing resolve
deadline yields 404 with a body naming the key, and a closing candidate
channel yields 500 with the exhaustion message. -/
theorem C3_timeout_404_exhausted_500 (key : String) (fs : List MirrorEvent)
    (hf : ∀ e ∈ fs, failedCandidate e = true) :
    mirrorLoop key (fs ++ [MirrorEvent.timeout])
        = [(404, "could not resolve mirror for key: " ++ key)]
    ∧ mirrorLoop key (fs ++ [MirrorEvent.closed])
        = [(500, "mirror resolution has been exhausted")] := by
  induction fs with
  | nil => exact ⟨rfl, rfl⟩
  | cons e es ih =>
    have he := hf e (List.mem_cons_self e es)
    have hes : ∀ x ∈ es, failedCandidate x = true :=
      fun x hx => hf x (List.mem_cons_of_mem e hx)
    obtain ⟨ih1, ih2⟩ := ih hes
    cases e with
    | timeout => simp [failedCandidate] at he
    | closed => simp [failedCandidate] at he
    | candidate url pok outcome =>
      cases pok with
      | false => simp [failedCandidate] at he
      | true =>
        have hnone : proxyAttempt outcome = none := by
          simpa [failedCandidate, Option.isNone_iff_eq_none] using he
        exact ⟨by simpa [mirrorLoop, hnone] using ih1, by simpa [mirrorLoop, hnone] using ih2⟩

/-- Claim C3 witness: one transport-failed candidate, then a timeout gives the
404 naming the key and a closed channel gives the exhaustion 500. -/
theorem C3_witness :
    mirrorLoop "sha256:foo"
        ([MirrorEvent.candidate "http://p1:5000" true AttemptOutcome.transportError]
          ++ [MirrorEvent.timeout])
        = [(404, "could not resolve mirror for key: sha256:foo")]
    ∧ mirrorLoop "sha256:foo"
        ([MirrorEvent.candidate "http://p1:5000" true AttemptOutcome.transportError]
          ++ [MirrorEvent.closed])
        = [(500, "mirror resolution has been exhausted")] :=
  C3_timeout_404_exhausted_500 "sha256:foo" _ (by decide)

/-- Claim C4: whenever the root is a stored index and every platform-matching
child is a stored manifest, the walk returns exactly the root digest followed,
for each matching child in index order, by its digest, its config digest and
its layer digests in manifest order. Being a function of its input, the walk
returns this same list on every call. -/
theorem C4_walk_order (store : Store) (m : Platform → Bool) (root : String)
    (ms : List Descriptor) (fuel : Nat)
    (cfg : Descriptor → Descriptor) (lay : Descriptor → List Descriptor)
    (hroot : storeLookup store root = some (Blob.index ms))
    (hchild : ∀ d ∈ ms.filter (matchDesc m),
      storeLookup store d.digest = some (Blob.manifest (cfg d) (lay d)))
    (hne : ms.filter (matchDesc m) ≠ []) :
    walkDesc (fuel + 2) store m root
      = Except.ok (root :: ((ms.filter (matchDesc m)).map
          (fun d => d.digest :: (cfg d).digest :: (lay d).map Descriptor.digest)).flatten) := by
  have hwc := walkChildren_manifests store m fuel cfg lay (ms.filter (matchDesc m)) hchild
  simp [walkDesc, hroot, hne, hwc]

/-- Claim C4 witness: on the reference index with the linux amd64 matcher the
walk returns the fixed 14-element digest list of the test data. -/
theorem C4_witness :
    walkDesc 10 testStore linuxAmd64 rootDigest
      = Except.ok
        ["sha256:e80e36564e9617f684eb5972bf86dc9e9e761216e0d40ff78ca07741ec70725a",
         "sha256:44cb2cf712c060f69df7310e99339c1eb51a085446f1bb6d44469acff35b4355",
         "sha256:d715ba0d85ee7d37da627d0679652680ed2cb23dde6120f25143a0b8079ee47e",
         "sha256:a7ca0d9ba68fdce7e15bc0952d3e898e970548ca24d57698725836c039086639",
         "sha256:fe5ca62666f04366c8e7f605aa82997d71320183e99962fa76b3209fdfbb8b58",
         "sha256:b02a7525f878e61fc1ef8a7405a2cc17f866e8de222c1c98fd6681aff6e509db",
         "sha256:fcb6f6d2c9986d9cd6a2ea3cc2936e5fc613e09f1af9042329011e43057f3265",
         "sha256:e8c73c638ae9ec5ad70c49df7e484040d889cca6b4a9af056579c3d058ea93f0",
         "sha256:1e3d9b7d145208fa8fa3ee1c9612d0adaac7255f1bbc9ddea7e461e0b317805c",
         "sha256:4aa0ea1413d37a58615488592a0b827ea4b2e48fa5a77cf707d0e35f025e613f",
         "sha256:7c881f9ab25e0d86562a123b5fb56aebf8aa0ddd7d48ef602faf8d1e7cf43d8c",
         "sha256:5627a970d25e752d971a501ec7e35d0d6fdcd4a3ce9e958715a686853024794a",
         "sha256:76f3a495ffdc00c612747ba0c59fc56d0a2610d2785e80e9edddbf214c2709ef",
         "sha256:4f4fb700ef54461cfa02571ae0db9a0dc1e0cdb5577484a6d75e68dc38e8acc1"] := by
  have h := C4_walk_order testStore linuxAmd64 rootDigest rootManifests 8 testCfg testLay
    (by rfl) (by decide) (by decide)
  exact h.trans (by rfl)

/-- Claim C5: the resolve-latest-tag gate extracts the tag by cutting the
fully qualified reference at its FIRST colon; a registry host carrying a port
makes that cut land inside the host, so the gate misses and the latest request
is forwarded to peer resolution, while the same request without a ported
registry is answered 404. -/
theorem C5_latest_gate_bypassed_by_port :
    registryHandler false (fun _ => Except.error "not found")
        ⟨"GET", "/v2/spegel/manifests/latest", "foo.bar:5000", []⟩
      = HandlerAction.mirror "foo.bar:5000/spegel:latest"
    ∧ registryHandler false (fun _ => Except.error "not found")
        ⟨"GET", "/v2/spegel/manifests/latest", "docker.io", []⟩
      = HandlerAction.respond 404 "" :=
  ⟨rfl, rfl⟩

/-- Claim C6, counterexample: the claim asserts a missing blob is answered
404; handleBlob aborts with 500 when the size query fails. -/
theorem C6_counterexample :
    (handleBlob ⟨[("sha256:aaa", 3)], [("sha256:aaa", "abc")]⟩ "GET" "sha256:bbb").status = 500
    ∧ ¬(handleBlob ⟨[("sha256:aaa", 3)], [("sha256:aaa", "abc")]⟩ "GET" "sha256:bbb").status
        = 404 :=
  ⟨rfl, by decide⟩

/-- Claim C6 as amended: a locally served blob request whose digest has no
size in the store is answered 500 and no blob bytes are written. -/
theorem C6_missing_blob_500 (st : OciStore) (method dgst : String)
    (h : assocLookup st.sizes dgst = none) :
    (handleBlob st method dgst).status = 500 ∧ (handleBlob st method dgst).body = "" := by
  simp [handleBlob, h]

/-- Claim C6 witness: the amended theorem applied to a store lacking the
requested digest. -/
theorem C6_witness :
    (handleBlob ⟨[("sha256:aaa", 3)], [("sha256:aaa", "abc")]⟩ "GET" "sha256:ccc").status = 500
    ∧ (handleBlob ⟨[("sha256:aaa", 3)], [("sha256:aaa", "abc")]⟩ "GET" "sha256:ccc").body
        = "" :=
  C6_missing_blob_500 ⟨[("sha256:aaa", 3)], [("sha256:aaa", "abc")]⟩ "GET" "sha256:ccc" (by rfl)

/-- Claim C7: when the router Resolve call fails, the 500 is written at once,
but the missing return statement leaves the handler inside the select loop, so
when the resolve deadline later fires a second abort with 404 is attempted:
the handler kept the request pending until the timeout instead of returning. -/
theorem C7_resolver_error_not_returned :
    handleMirror (some "router resolve error") "sha256:key" [MirrorEvent.timeout]
      = [(500, "router resolve error"),
         (404, "could not resolve mirror for key: sha256:key")]
    ∧ handleMirror (some "router resolve error") "sha256:key" []
      = [(500, "router resolve error")] :=
  ⟨rfl, rfl⟩

/-- Claim C8: inserting a descriptor whose platform architecture is unknown
anywhere among the children of an index changes nothing about the walk, for
every store, matcher and fuel: the attestation contributes no digest to the
output and its presence never turns a succeeding walk into a failing one. -/
theorem C8_attestation_invariance (m : Platform → Bool) (fuel : Nat) (d : String)
    (pre post : List Descriptor) (a : Descriptor) (rest : Store) (pl : Platform)
    (hpl : a.platform = some pl) (ha : pl.architecture = "unknown") :
    walkDesc fuel ((d, Blob.index (pre ++ a :: post)) :: rest) m d
      = walkDesc fuel ((d, Blob.index (pre ++ post)) :: rest) m d := by
  have hma : matchDesc m a = false := by simp [matchDesc, hpl, ha]
  have hequiv : ∀ y, optBlobEquiv m
      (storeLookup ((d, Blob.index (pre ++ a :: post)) :: rest) y)
      (storeLookup ((d, Blob.index (pre ++ post)) :: rest) y) := by
    intro y
    by_cases hy : d = y
    · simp [storeLookup, hy, optBlobEquiv, blobEquiv, List.filter_append, List.filter_cons, hma]
    · simp [storeLookup, hy, optBlobEquiv_refl]
  exact (walk_store_congr m fuel _ _ hequiv).1 d

/-- Claim C8 witness: dropping the first attestation descriptor from the
reference index leaves the walk output unchanged. -/
theorem C8_witness :
    walkDesc 10 ((rootDigest,
        Blob.index ([amd64Desc, armDesc, arm64Desc] ++ attest1Desc :: [attest2Desc, attest3Desc]))
        :: testManifestEntries) linuxAmd64 rootDigest
      = walkDesc 10 ((rootDigest,
        Blob.index ([amd64Desc, armDesc, arm64Desc] ++ [attest2Desc, attest3Desc]))
        :: testManifestEntries) linuxAmd64 rootDigest :=
  C8_attestation_invariance linuxAmd64 10 rootDigest [amd64Desc, armDesc, arm64Desc]
    [attest2Desc, attest3Desc] attest1Desc testManifestEntries ⟨"unknown", "unknown", ""⟩
    (by rfl) (by rfl)

/-- Claim C9, counterexample: the claim asserts no pre-existing file under the
config path is deleted without first being moved under the backup subtree; a
loose file directly in the config path is discarded, not backed up. -/
theorem C9_counterexample :
    addMirrorConfigFs [(["test.txt"], "test")] [] = [] := rfl

/-- Claim C9 as amended: on a first run (no backup subtree yet) every
pre-existing file under a subdirectory of the config path reappears under the
backup subtree with its relative path preserved, while a run that finds the
backup subtree present keeps it exactly (only new files may add to it); loose
files directly in the config path are discarded, not backed up. -/
theorem C9_backup_preserves_subdir_files (fs newFiles : Fs) (p : List String) (c : String) :
    (hasBackup fs = false → (p, c) ∈ fs → 2 ≤ p.length →
      ("_backup" :: p, c) ∈ addMirrorConfigFs fs newFiles)
    ∧ (hasBackup fs = true →
      (addMirrorConfigFs fs newFiles).filter (fun f => isBackupPath f.1)
        = fs.filter (fun f => isBackupPath f.1)
          ++ newFiles.filter (fun f => isBackupPath f.1)) := by
  constructor
  · intro hb hmem hlen
    have hrw : addMirrorConfigFs fs newFiles
        = (fs.filter (fun f => 2 ≤ f.1.length)).map (fun f => ("_backup" :: f.1, f.2))
          ++ newFiles := by
      simp [addMirrorConfigFs, hb]
    rw [hrw]
    refine List.mem_append_left _ ?_
    refine List.mem_map.mpr ⟨(p, c), ?_, rfl⟩
    exact List.mem_filter.mpr ⟨hmem, by simpa using hlen⟩
  · intro hb
    have hrw : addMirrorConfigFs fs newFiles
        = fs.filter (fun f => isBackupPath f.1) ++ newFiles := by
      simp [addMirrorConfigFs, hb]
    rw [hrw, List.filter_append]
    congr 1
    rw [List.filter_filter]
    simp

/-- Claim C9 witness: the amended theorem applied to the pre-existing user
file of the test scenario. -/
theorem C9_witness :
    (["_backup", "docker.io", "hosts.toml"], "Hello World") ∈
      addMirrorConfigFs
        [(["docker.io", "hosts.toml"], "Hello World"), (["ghcr.io", "hosts.toml"], "Foo Bar")]
        [] :=
  (C9_backup_preserves_subdir_files _ _ _ _).1 (by rfl) (by decide) (by decide)

/-- Claim C10: when the stored root index has no child accepted by the
matcher, the walk fails with the no-matching-platform error naming the digest
of that index and returns no digest list. -/
theorem C10_no_matching_platform (store : Store) (m : Platform → Bool) (root : String)
    (ms : List Descriptor) (fuel : Nat)
    (hroot : storeLookup store root = some (Blob.index ms))
    (hnone : ∀ d ∈ ms, matchDesc m d = false) :
    walkDesc (fuel + 1) store m root = Except.error (WalkError.noMatchingPlatform root) := by
  have hf : ms.filter (matchDesc m) = [] := by
    refine List.filter_eq_nil_iff.mpr ?_
    intro a ha
    simp [hnone a ha]
  simp [walkDesc, hroot, hf]

/-- Claim C10 witness: the darwin arm64 matcher on the linux-only reference
index fails naming the index digest. -/
theorem C10_witness :
    walkDesc 10 testStore darwinArm64 rootDigest
      = Except.error (WalkError.noMatchingPlatform rootDigest) :=
  C10_no_matching_platform testStore darwinArm64 rootDigest rootManifests 9 (by rfl) (by decide)

end Spegel
